import Mathlib

/-!
Shallow embedding of the touchscreen trackpad gesture engine.

The engine lives in `main/trackpad_gesture.c` (procedural implementation,
with constants from `main/trackpad_gesture.h`) and in
`main/trackpad_gesture.hpp` (the class-based `Trackpad` implementation).
The click sequencer lives in `main/ui_trackpad.c` (`process_pending_clicks`),
and the HID delta clamp in `main/app_hid_trackpad.c`
(`app_hid_trackpad_send_move`).

Modelling conventions:
* C `float` values are modelled as exact rationals (`ℚ`).  All branch
  decisions exercised by the concrete runs below are robust to the tiny
  rounding differences between binary32 and exact arithmetic (they compare
  quantities such as 8910 against thresholds such as 1500).
* `sqrtf` is modelled as an arbitrary function parameter `sq : ℚ → ℚ`;
  invariant theorems are proved for every `sq`.  Concrete runs instantiate
  `sq := qSqrt`, which agrees with the real square root (hence with
  `sqrtf` up to rounding) on the perfect squares that arise there.
* Casts of floating values to `int8_t`/`int16_t` truncate toward zero in C
  (out-of-range casts are undefined behaviour); they are modelled by exact
  truncation toward zero (`truncQ`).  `roundf` rounds half away from zero
  and is modelled by `roundQ`.
* `uint32_t` subtraction wraps modulo 2^32 and is modelled by `u32sub`
  (timestamps are `uint32_t` milliseconds, modelled as `ℕ` values < 2^32).
-/

namespace Trackpad

/-- 2^32, the modulus of `uint32_t` arithmetic. -/
def U32 : ℕ := 4294967296

/-- `uint32_t` subtraction `a - b` (wrapping modulo 2^32); the operands the
code produces are already reduced, the `% U32` on `b` keeps the function
total on `ℕ`. -/
def u32sub (a b : ℕ) : ℕ := (a + U32 - b % U32) % U32

/-- Truncation toward zero of a rational, the semantics of C float-to-int
conversion. -/
def truncQ (q : ℚ) : ℤ := if 0 ≤ q then ⌊q⌋ else ⌈q⌉

/-- Rounding half away from zero, the semantics of C `roundf`. -/
def roundQ (q : ℚ) : ℤ := if 0 ≤ q then ⌊q + 1/2⌋ else ⌈q - 1/2⌉

/-- Heron iteration with explicit fuel (structural recursion, so the kernel
can evaluate it, unlike `Nat.sqrt`). -/
def heronIter (n : ℕ) : ℕ → ℕ → ℕ
  | 0, guess => guess
  | fuel + 1, guess =>
    let next := (guess + n / guess) / 2
    if next < guess then heronIter n fuel next else guess

/-- Integer square root (floor), kernel-evaluable. -/
def natSqrtF (n : ℕ) : ℕ :=
  if n ≤ 1 then n else heronIter n 128 (n / 2 + 1)

/-- Rational stand-in for `sqrtf`, used to instantiate concrete runs; it is
exact on rationals whose numerator and denominator are perfect squares,
which covers every concrete evaluation in this file. -/
def qSqrt (q : ℚ) : ℚ := (natSqrtF q.num.toNat : ℚ) / (natSqrtF q.den : ℚ)

/-- The result of subtracting the truncation toward zero stays in (-1, 1). -/
theorem sub_truncQ_bounds (q : ℚ) :
    -1 < q - truncQ q ∧ q - truncQ q < 1 := by
  unfold truncQ
  split
  · constructor
    · have h := Int.floor_le q
      have h0 : (0:ℚ) ≤ q - ⌊q⌋ := by linarith
      linarith
    · have h := Int.lt_floor_add_one q
      push_cast at h ⊢
      linarith
  · constructor
    · have h := Int.ceil_lt_add_one q
      push_cast at h ⊢
      linarith
    · have h := Int.le_ceil q
      have h0 : q - ⌈q⌉ ≤ 0 := by linarith
      linarith

/-- If the truncation toward zero is 0 then the rational lies in (-1, 1). -/
theorem truncQ_eq_zero_bounds (q : ℚ) (h : truncQ q = 0) :
    -1 < q ∧ q < 1 := by
  have := sub_truncQ_bounds q
  rw [h] at this
  push_cast at this
  constructor <;> linarith [this.1, this.2]

/-! ## The procedural engine: `main/trackpad_gesture.c` with the constants of
`main/trackpad_gesture.h`. -/

namespace C

/-- `TRACKPAD_JITTER_THRESHOLD` (trackpad_gesture.h). -/
def TRACKPAD_JITTER_THRESHOLD : ℤ := 3

/-- `TRACKPAD_VELOCITY_ALPHA` = 0.3f (trackpad_gesture.h). -/
def TRACKPAD_VELOCITY_ALPHA : ℚ := 3/10

/-- `TRACKPAD_ACCEL_PRECISION_SENSITIVITY` = 0.5f. -/
def TRACKPAD_ACCEL_PRECISION_SENSITIVITY : ℚ := 1/2

/-- `TRACKPAD_ACCEL_BASE_SENSITIVITY` = 1.0f. -/
def TRACKPAD_ACCEL_BASE_SENSITIVITY : ℚ := 1

/-- `TRACKPAD_ACCEL_MAX_MULTIPLIER` = 5.0f. -/
def TRACKPAD_ACCEL_MAX_MULTIPLIER : ℚ := 5

/-- `TRACKPAD_ACCEL_PRECISION_THRESHOLD` = 100.0f. -/
def TRACKPAD_ACCEL_PRECISION_THRESHOLD : ℚ := 100

/-- `TRACKPAD_ACCEL_LINEAR_THRESHOLD` = 400.0f. -/
def TRACKPAD_ACCEL_LINEAR_THRESHOLD : ℚ := 400

/-- `TRACKPAD_ACCEL_MAX_THRESHOLD` = 1500.0f. -/
def TRACKPAD_ACCEL_MAX_THRESHOLD : ℚ := 1500

/-- `TRACKPAD_TAP_MIN_DURATION_MS`. -/
def TRACKPAD_TAP_MIN_DURATION_MS : ℕ := 50

/-- `TRACKPAD_TAP_MAX_DURATION_MS`. -/
def TRACKPAD_TAP_MAX_DURATION_MS : ℕ := 200

/-- `TRACKPAD_TAP_MOVE_THRESHOLD`. -/
def TRACKPAD_TAP_MOVE_THRESHOLD : ℤ := 15

/-- `TRACKPAD_DOUBLE_TAP_WINDOW_MS`. -/
def TRACKPAD_DOUBLE_TAP_WINDOW_MS : ℕ := 350

/-- `TRACKPAD_DRAG_MOVE_THRESHOLD`. -/
def TRACKPAD_DRAG_MOVE_THRESHOLD : ℤ := 25

/-- `TRACKPAD_SCROLL_SENSITIVITY`. -/
def TRACKPAD_SCROLL_SENSITIVITY : ℚ := 20

/-- `trackpad_zone_t`. -/
inductive Zone where
| main
| scrollV
| scrollH
| scrollCorner
deriving DecidableEq

/-- `trackpad_touch_state_t`. -/
inductive TouchState where
| idle
| down
| moving
| scrolling
| dragging
deriving DecidableEq

/-- `trackpad_event_type_t`. -/
inductive EventType where
| pressed
| pressing
| released
deriving DecidableEq

/-- `trackpad_input_t`; the timestamp is a `uint32_t` millisecond count. -/
structure Input where
  type : EventType
  x : ℤ
  y : ℤ
  timestamp_ms : ℕ
deriving DecidableEq

/-- `trackpad_action_type_t`. -/
inductive ActionType where
| none
| move
| clickDown
| clickUp
| doubleClick
| scrollV
| scrollH
| dragStart
| dragMove
| dragEnd
| showDragIndicator
| hideDragIndicator
deriving DecidableEq

/-- `trackpad_action_t`; the `memset(action, 0, ...)` at the top of
`trackpad_process_input` corresponds to the default values. -/
structure Action where
  type : ActionType := ActionType.none
  dx : ℤ := 0
  dy : ℤ := 0
  scroll_v : ℤ := 0
  scroll_h : ℤ := 0
  buttons : ℕ := 0
deriving DecidableEq

/-- `trackpad_point_t`. -/
structure Point where
  x : ℤ
  y : ℤ
deriving DecidableEq

/-- `trackpad_state_t`. -/
structure State where
  hres : ℕ
  vres : ℕ
  scroll_zone_w : ℤ
  scroll_zone_h : ℤ
  state : TouchState
  touch_start : Point
  last_pos : Point
  touch_down_time : ℕ
  last_sample_time : ℕ
  last_tap_time : ℕ
  total_movement : ℤ
  button_held : Bool
  tap_tap_pending : Bool
  velocity_x_smooth : ℚ
  velocity_y_smooth : ℚ
  scroll_accum_v : ℚ
  scroll_accum_h : ℚ
deriving DecidableEq

/-- `trackpad_tap_result_t`. -/
inductive TapResult where
| none
| single
| double
deriving DecidableEq

/-- `trackpad_state_init`: `memset` to zero, then store the configuration and
set the phase to idle. -/
def trackpad_state_init (hres vres : ℕ) (scroll_zone_w scroll_zone_h : ℤ) :
    State where
  hres := hres
  vres := vres
  scroll_zone_w := scroll_zone_w
  scroll_zone_h := scroll_zone_h
  state := TouchState.idle
  touch_start := ⟨0, 0⟩
  last_pos := ⟨0, 0⟩
  touch_down_time := 0
  last_sample_time := 0
  last_tap_time := 0
  total_movement := 0
  button_held := false
  tap_tap_pending := false
  velocity_x_smooth := 0
  velocity_y_smooth := 0
  scroll_accum_v := 0
  scroll_accum_h := 0

/-- `trackpad_clamp_i32`. -/
def trackpad_clamp_i32 (val min max : ℤ) : ℤ :=
  if val < min then min else if val > max then max else val

/-- `trackpad_get_zone` (trackpad_gesture.c).  `hres - scroll_w` is computed
after the usual C integer promotions, i.e. exactly in `ℤ`. -/
def trackpad_get_zone (x y : ℤ) (hres vres : ℕ) (scroll_w scroll_h : ℤ) :
    Zone :=
  let in_right := x ≥ (hres : ℤ) - scroll_w
  let in_bottom := y ≥ (vres : ℤ) - scroll_h
  if in_right ∧ in_bottom then Zone.scrollCorner
  else if in_right then Zone.scrollV
  else if in_bottom then Zone.scrollH
  else Zone.main

/-- `trackpad_filter_jitter`. -/
def trackpad_filter_jitter (raw_delta threshold : ℤ) : ℤ :=
  if |raw_delta| ≤ threshold then 0
  else if raw_delta > 0 then raw_delta - threshold
  else raw_delta + threshold

/-- `trackpad_is_jitter`. -/
def trackpad_is_jitter (dx dy threshold : ℤ) : Bool :=
  decide (|dx| ≤ threshold ∧ |dy| ≤ threshold)

/-- `trackpad_ewma_update`. -/
def trackpad_ewma_update (current_smooth instant_value alpha : ℚ) : ℚ :=
  alpha * instant_value + (1 - alpha) * current_smooth

/-- `trackpad_apply_acceleration`; `sq` models `sqrtf`. -/
def trackpad_apply_acceleration (sq : ℚ → ℚ) (delta velocity_pps : ℚ) : ℚ :=
  if |delta| < 1/2 then delta
  else
    let multiplier :=
      if velocity_pps < TRACKPAD_ACCEL_PRECISION_THRESHOLD then
        TRACKPAD_ACCEL_PRECISION_SENSITIVITY
      else if velocity_pps < TRACKPAD_ACCEL_LINEAR_THRESHOLD then
        let t := (velocity_pps - TRACKPAD_ACCEL_PRECISION_THRESHOLD) /
          (TRACKPAD_ACCEL_LINEAR_THRESHOLD - TRACKPAD_ACCEL_PRECISION_THRESHOLD)
        TRACKPAD_ACCEL_PRECISION_SENSITIVITY +
          t * (TRACKPAD_ACCEL_BASE_SENSITIVITY - TRACKPAD_ACCEL_PRECISION_SENSITIVITY)
      else if velocity_pps < TRACKPAD_ACCEL_MAX_THRESHOLD then
        let t := (velocity_pps - TRACKPAD_ACCEL_LINEAR_THRESHOLD) /
          (TRACKPAD_ACCEL_MAX_THRESHOLD - TRACKPAD_ACCEL_LINEAR_THRESHOLD)
        let curve := sq t
        TRACKPAD_ACCEL_BASE_SENSITIVITY +
          curve * (TRACKPAD_ACCEL_MAX_MULTIPLIER - TRACKPAD_ACCEL_BASE_SENSITIVITY)
      else TRACKPAD_ACCEL_MAX_MULTIPLIER
    delta * multiplier

/-- `trackpad_classify_tap`; the duration is the `uint32_t` difference
computed by the caller. -/
def trackpad_classify_tap (duration_ms : ℕ)
    (net_displacement total_movement : ℤ) (is_double_tap_pending : Bool) :
    TapResult :=
  if duration_ms < TRACKPAD_TAP_MIN_DURATION_MS then TapResult.none
  else if duration_ms ≥ TRACKPAD_TAP_MAX_DURATION_MS then TapResult.none
  else
    let was_jitter := total_movement > 30 ∧ net_displacement < 15
    if net_displacement ≥ TRACKPAD_TAP_MOVE_THRESHOLD ∧ ¬was_jitter then
      TapResult.none
    else if is_double_tap_pending then TapResult.double
    else TapResult.single

/-- Result of one `trackpad_process_input` call: the C `bool` return value,
the out-parameter `action`, and the mutated `state`. -/
structure StepResult where
  ret : Bool
  action : Action
  state : State
deriving DecidableEq

/-- `trackpad_process_input` (trackpad_gesture.c, lines 148-394), transcribed
branch for branch.  `sq` models `sqrtf`. -/
def trackpad_process_input (sq : ℚ → ℚ) (state : State) (input : Input) :
    StepResult :=
  let action : Action := {}
  match input.type with
  | EventType.pressed =>
    let state := { state with
      touch_start := ⟨input.x, input.y⟩
      last_pos := ⟨input.x, input.y⟩
      touch_down_time := input.timestamp_ms
      last_sample_time := input.timestamp_ms
      total_movement := 0
      state := TouchState.down
      scroll_accum_v := 0
      scroll_accum_h := 0 }
    let zone := trackpad_get_zone input.x input.y state.hres state.vres
      state.scroll_zone_w state.scroll_zone_h
    if zone = Zone.main ∧ state.last_tap_time > 0 ∧
        u32sub input.timestamp_ms state.last_tap_time <
          TRACKPAD_DOUBLE_TAP_WINDOW_MS then
      ⟨true, { action with type := ActionType.showDragIndicator },
        { state with tap_tap_pending := true }⟩
    else
      ⟨false, action, { state with tap_tap_pending := false }⟩
  | EventType.pressing =>
    let raw_dx := input.x - state.last_pos.x
    let raw_dy := input.y - state.last_pos.y
    let dt0 := u32sub input.timestamp_ms state.last_sample_time
    let dt_ms := if dt0 = 0 then 1 else dt0
    if trackpad_is_jitter raw_dx raw_dy TRACKPAD_JITTER_THRESHOLD then
      ⟨false, action, { state with
        last_pos := ⟨input.x, input.y⟩
        last_sample_time := input.timestamp_ms }⟩
    else
      let filtered_dx := trackpad_filter_jitter raw_dx TRACKPAD_JITTER_THRESHOLD
      let filtered_dy := trackpad_filter_jitter raw_dy TRACKPAD_JITTER_THRESHOLD
      let instant_vx : ℚ := (filtered_dx : ℚ) / ((dt_ms : ℚ) * (1/1000))
      let instant_vy : ℚ := (filtered_dy : ℚ) / ((dt_ms : ℚ) * (1/1000))
      let state := { state with
        velocity_x_smooth := trackpad_ewma_update state.velocity_x_smooth
          instant_vx TRACKPAD_VELOCITY_ALPHA
        velocity_y_smooth := trackpad_ewma_update state.velocity_y_smooth
          instant_vy TRACKPAD_VELOCITY_ALPHA }
      let velocity_pps := sq (state.velocity_x_smooth * state.velocity_x_smooth +
        state.velocity_y_smooth * state.velocity_y_smooth)
      let state := { state with
        total_movement := state.total_movement + |raw_dx| + |raw_dy| }
      let zone := trackpad_get_zone state.touch_start.x state.touch_start.y
        state.hres state.vres state.scroll_zone_w state.scroll_zone_h
      if zone = Zone.scrollV ∨ zone = Zone.scrollCorner then
        let state := { state with
          state := TouchState.scrolling
          scroll_accum_v := state.scroll_accum_v +
            (filtered_dy : ℚ) / TRACKPAD_SCROLL_SENSITIVITY }
        let scroll_units := truncQ state.scroll_accum_v
        if scroll_units ≠ 0 then
          ⟨true,
            { action with type := ActionType.scrollV, scroll_v := -scroll_units },
            { state with
              scroll_accum_v := state.scroll_accum_v - scroll_units
              last_pos := ⟨input.x, input.y⟩
              last_sample_time := input.timestamp_ms }⟩
        else
          ⟨false, action, { state with
            last_pos := ⟨input.x, input.y⟩
            last_sample_time := input.timestamp_ms }⟩
      else if zone = Zone.scrollH then
        let state := { state with
          state := TouchState.scrolling
          scroll_accum_h := state.scroll_accum_h +
            (filtered_dx : ℚ) / TRACKPAD_SCROLL_SENSITIVITY }
        let scroll_units := truncQ state.scroll_accum_h
        if scroll_units ≠ 0 then
          ⟨true,
            { action with type := ActionType.scrollH, scroll_h := scroll_units },
            { state with
              scroll_accum_h := state.scroll_accum_h - scroll_units
              last_pos := ⟨input.x, input.y⟩
              last_sample_time := input.timestamp_ms }⟩
        else
          ⟨false, action, { state with
            last_pos := ⟨input.x, input.y⟩
            last_sample_time := input.timestamp_ms }⟩
      else
        if state.tap_tap_pending ∧
            state.total_movement > TRACKPAD_DRAG_MOVE_THRESHOLD ∧
            state.state ≠ TouchState.dragging then
          ⟨true,
            { action with type := ActionType.dragStart, buttons := 1 },
            { state with
              state := TouchState.dragging
              button_held := true
              last_pos := ⟨input.x, input.y⟩
              last_sample_time := input.timestamp_ms }⟩
        else
          let state :=
            if ¬(state.tap_tap_pending ∧
                state.total_movement > TRACKPAD_DRAG_MOVE_THRESHOLD) ∧
                state.total_movement > TRACKPAD_TAP_MOVE_THRESHOLD then
              { state with state := TouchState.moving }
            else state
          if filtered_dx ≠ 0 ∨ filtered_dy ≠ 0 then
            let accel_dx := trackpad_apply_acceleration sq (filtered_dx : ℚ)
              velocity_pps
            let accel_dy := trackpad_apply_acceleration sq (filtered_dy : ℚ)
              velocity_pps
            let out_dx := roundQ accel_dx
            let out_dy := roundQ accel_dy
            let action :=
              if state.state = TouchState.dragging then
                { action with type := ActionType.dragMove, buttons := 1 }
              else { action with type := ActionType.move }
            ⟨true, { action with dx := out_dx, dy := out_dy },
              { state with
                last_pos := ⟨input.x, input.y⟩
                last_sample_time := input.timestamp_ms }⟩
          else
            ⟨false, action, { state with
              last_pos := ⟨input.x, input.y⟩
              last_sample_time := input.timestamp_ms }⟩
  | EventType.released =>
    let duration := u32sub input.timestamp_ms state.touch_down_time
    let net_dx := input.x - state.touch_start.x
    let net_dy := input.y - state.touch_start.y
    let net_displacement := |net_dx| + |net_dy|
    if state.state = TouchState.dragging then
      ⟨true, { action with type := ActionType.dragEnd, buttons := 0 },
        { state with
          button_held := false
          last_tap_time := 0
          tap_tap_pending := false
          velocity_x_smooth := 0
          velocity_y_smooth := 0
          state := TouchState.idle }⟩
    else if state.state = TouchState.scrolling then
      ⟨false, action, { state with
        last_tap_time := 0
        tap_tap_pending := false
        state := TouchState.idle }⟩
    else
      let tap_result := trackpad_classify_tap duration net_displacement
        state.total_movement state.tap_tap_pending
      if tap_result = TapResult.double then
        ⟨true, { action with type := ActionType.doubleClick, buttons := 1 },
          { state with
            last_tap_time := 0
            tap_tap_pending := false
            velocity_x_smooth := 0
            velocity_y_smooth := 0
            state := TouchState.idle }⟩
      else if tap_result = TapResult.single then
        ⟨true, { action with type := ActionType.clickDown, buttons := 1 },
          { state with
            last_tap_time := input.timestamp_ms
            velocity_x_smooth := 0
            velocity_y_smooth := 0
            state := TouchState.idle }⟩
      else
        let state := { state with
          last_tap_time := 0
          tap_tap_pending := false
          velocity_x_smooth := 0
          velocity_y_smooth := 0
          state := TouchState.idle }
        if state.tap_tap_pending then
          ⟨true, { action with type := ActionType.hideDragIndicator }, state⟩
        else
          ⟨false, action, state⟩

/-- Folding `trackpad_process_input` over a list of input events. -/
def runC (sq : ℚ → ℚ) (s : State) (inputs : List Input) : State :=
  inputs.foldl (fun s i => (trackpad_process_input sq s i).state) s

end C

/-! ## The class-based engine: `main/trackpad_gesture.hpp`. -/

namespace Cpp

/-- `TrackpadConfig` with its member initializers. -/
structure TrackpadConfig where
  tap_max_duration_ms : ℕ := 150
  tap_max_movement_px : ℤ := 5
  multi_tap_window_ms : ℕ := 300
  drag_hold_time_ms : ℕ := 150
  accel_min : ℚ := 3/2
  accel_max : ℚ := 4
  accel_velocity_scale : ℚ := 100
  accel_exponent : ℚ := 4/5
  anti_wiggle_px : ℤ := 2
deriving DecidableEq

/-- `TouchEvent`. -/
inductive TouchEvent where
| pressed
| pressing
| released
deriving DecidableEq

/-- `TouchInput`. -/
structure TouchInput where
  event : TouchEvent
  x : ℤ
  y : ℤ
  timestamp_ms : ℕ
deriving DecidableEq

/-- `ActionType` of the hpp implementation. -/
inductive ActionType where
| none
| move
| click
| doubleClick
| tripleClick
| quadClick
| dragStart
| dragMove
| dragEnd
deriving DecidableEq

/-- `TrackpadAction`. -/
structure TrackpadAction where
  type : ActionType := ActionType.none
  dx : ℤ := 0
  dy : ℤ := 0
deriving DecidableEq

/-- `TrackpadAction::hasAction`. -/
def TrackpadAction.hasAction (a : TrackpadAction) : Bool :=
  decide (a.type ≠ ActionType.none)

/-- The private `State` enum of class `Trackpad`. -/
inductive MState where
| idle
| moving
| waitingForTap
| dragging
deriving DecidableEq

/-- The data members of class `Trackpad`. -/
structure Trackpad where
  m_screen_width : ℕ
  m_screen_height : ℕ
  m_config : TrackpadConfig
  m_state : MState
  m_touch_down : Bool
  m_tap_count : ℕ
  m_last_x : ℤ
  m_last_y : ℤ
  m_touch_start_x : ℤ
  m_touch_start_y : ℤ
  m_current_time : ℕ
  m_touch_down_time : ℕ
  m_last_release_time : ℕ
  m_total_movement : ℤ
  m_accum_x : ℚ
  m_accum_y : ℚ
deriving DecidableEq

/-- `Trackpad::reset` (it does not touch `m_current_time` or the
configuration). -/
def Trackpad.reset (t : Trackpad) : Trackpad :=
  { t with
    m_state := MState.idle
    m_touch_down := false
    m_tap_count := 0
    m_last_x := 0
    m_last_y := 0
    m_touch_start_x := 0
    m_touch_start_y := 0
    m_touch_down_time := 0
    m_last_release_time := 0
    m_total_movement := 0
    m_accum_x := 0
    m_accum_y := 0 }

/-- The `Trackpad(screen_width, screen_height)` constructor: member
initializers followed by `reset()`. -/
def Trackpad.init (screen_width screen_height : ℕ) : Trackpad :=
  Trackpad.reset
    { m_screen_width := screen_width
      m_screen_height := screen_height
      m_config := {}
      m_state := MState.idle
      m_touch_down := false
      m_tap_count := 0
      m_last_x := 0
      m_last_y := 0
      m_touch_start_x := 0
      m_touch_start_y := 0
      m_current_time := 0
      m_touch_down_time := 0
      m_last_release_time := 0
      m_total_movement := 0
      m_accum_x := 0
      m_accum_y := 0 }

/-- `Trackpad::calculateAcceleration`: linear interpolation with the velocity
ratio clamped to [0, 1] (the hpp comment notes it deliberately uses no
`sqrt`/`pow`). -/
def calculateAcceleration (cfg : TrackpadConfig) (velocity_pps : ℚ) : ℚ :=
  let normalized := velocity_pps / cfg.accel_velocity_scale
  let normalized := if normalized < 0 then 0 else normalized
  let normalized := if normalized > 1 then 1 else normalized
  cfg.accel_min + (cfg.accel_max - cfg.accel_min) * normalized

/-- `Trackpad::emitPendingClicks`. -/
def Trackpad.emitPendingClicks (t : Trackpad) : TrackpadAction × Trackpad :=
  if t.m_tap_count = 0 then ({}, { t with m_state := MState.idle })
  else
    let action_type :=
      if t.m_tap_count = 1 then ActionType.click
      else if t.m_tap_count = 2 then ActionType.doubleClick
      else if t.m_tap_count = 3 then ActionType.tripleClick
      else ActionType.quadClick
    ({ type := action_type },
      { t with m_tap_count := 0, m_state := MState.idle })

/-- `Trackpad::handlePressed`. -/
def Trackpad.handlePressed (t : Trackpad) (input : TouchInput) :
    TrackpadAction × Trackpad :=
  let t := { t with
    m_touch_down := true
    m_last_x := input.x
    m_last_y := input.y
    m_touch_start_x := input.x
    m_touch_start_y := input.y
    m_touch_down_time := input.timestamp_ms
    m_total_movement := 0
    m_accum_x := 0
    m_accum_y := 0 }
  if t.m_state = MState.waitingForTap then ({}, t)
  else ({}, { t with m_state := MState.moving })

/-- The tail of `Trackpad::handlePressing` (hpp lines 257-282): speed
estimate, acceleration, sub-pixel accumulation, integer extraction by the
`int16_t` cast (truncation toward zero), and action selection. -/
def Trackpad.pressingMove (t : Trackpad) (raw_dx raw_dy : ℤ) :
    TrackpadAction × Trackpad :=
  let speed : ℚ := ((|raw_dx| + |raw_dy| : ℤ) : ℚ) * 200
  let accel := calculateAcceleration t.m_config speed
  let ax := t.m_accum_x + (raw_dx : ℚ) * accel
  let ay := t.m_accum_y + (raw_dy : ℚ) * accel
  let out_dx := truncQ ax
  let out_dy := truncQ ay
  let t := { t with m_accum_x := ax - out_dx, m_accum_y := ay - out_dy }
  if out_dx = 0 ∧ out_dy = 0 then ({}, t)
  else if t.m_state = MState.dragging then
    ({ type := ActionType.dragMove, dx := out_dx, dy := out_dy }, t)
  else
    ({ type := ActionType.move, dx := out_dx, dy := out_dy },
      { t with m_state := MState.moving })

/-- `Trackpad::handlePressing`. -/
def Trackpad.handlePressing (t : Trackpad) (input : TouchInput) :
    TrackpadAction × Trackpad :=
  if ¬t.m_touch_down then ({}, t)
  else
    let raw_dx := input.x - t.m_last_x
    let raw_dy := input.y - t.m_last_y
    let t := { t with
      m_total_movement := t.m_total_movement + |raw_dx| + |raw_dy|
      m_last_x := input.x
      m_last_y := input.y }
    if raw_dx = 0 ∧ raw_dy = 0 then ({}, t)
    else if |raw_dx| < t.m_config.anti_wiggle_px ∧
        |raw_dy| < t.m_config.anti_wiggle_px then ({}, t)
    else if t.m_state = MState.waitingForTap ∧
        t.m_total_movement > t.m_config.tap_max_movement_px then
      let pt := t.emitPendingClicks
      let t := { pt.2 with m_state := MState.moving }
      if pt.1.hasAction then (pt.1, t)
      else t.pressingMove raw_dx raw_dy
    else t.pressingMove raw_dx raw_dy

/-- `Trackpad::handleReleased`. -/
def Trackpad.handleReleased (t : Trackpad) (input : TouchInput) :
    TrackpadAction × Trackpad :=
  if ¬t.m_touch_down then ({}, t)
  else
    let t := { t with
      m_touch_down := false
      m_last_release_time := input.timestamp_ms }
    if t.m_state = MState.dragging then
      ({ type := ActionType.dragEnd },
        { t with m_state := MState.idle, m_tap_count := 0 })
    else
      let duration := u32sub input.timestamp_ms t.m_touch_down_time
      let displacement := |input.x - t.m_touch_start_x| +
        |input.y - t.m_touch_start_y|
      let is_tap := duration ≤ t.m_config.tap_max_duration_ms ∧
        t.m_total_movement ≤ t.m_config.tap_max_movement_px ∧
        displacement ≤ t.m_config.tap_max_movement_px
      if is_tap then
        ({}, { t with
          m_tap_count := t.m_tap_count + 1
          m_state := MState.waitingForTap })
      else
        let pt := t.emitPendingClicks
        (pt.1, { pt.2 with m_state := MState.idle })

/-- `Trackpad::processInput`. -/
def Trackpad.processInput (t : Trackpad) (input : TouchInput) :
    TrackpadAction × Trackpad :=
  let t := { t with m_current_time := input.timestamp_ms }
  match input.event with
  | TouchEvent.pressed => t.handlePressed input
  | TouchEvent.pressing => t.handlePressing input
  | TouchEvent.released => t.handleReleased input

/-- `Trackpad::tick`. -/
def Trackpad.tick (t : Trackpad) (timestamp_ms : ℕ) :
    TrackpadAction × Trackpad :=
  let t := { t with m_current_time := timestamp_ms }
  if t.m_state = MState.waitingForTap ∧ t.m_touch_down then
    let hold_time := u32sub t.m_current_time t.m_touch_down_time
    if hold_time ≥ t.m_config.drag_hold_time_ms then
      ({ type := ActionType.dragStart },
        { t with m_state := MState.dragging, m_tap_count := 0 })
    else ({}, t)
  else if t.m_state = MState.waitingForTap ∧ ¬t.m_touch_down then
    let since_release := u32sub t.m_current_time t.m_last_release_time
    if since_release ≥ t.m_config.multi_tap_window_ms then
      t.emitPendingClicks
    else ({}, t)
  else ({}, t)

/-- One call by the host: either `processInput` with a touch event or `tick`
with a timestamp. -/
inductive HostCall where
| input (i : TouchInput)
| tick (timestamp_ms : ℕ)

/-- Execute one host call, keeping only the state. -/
def Trackpad.hostStep (t : Trackpad) : HostCall → Trackpad
  | HostCall.input i => (t.processInput i).2
  | HostCall.tick now => (t.tick now).2

/-- Folding host calls over the class-based engine. -/
def runCpp (t : Trackpad) (calls : List HostCall) : Trackpad :=
  calls.foldl Trackpad.hostStep t

end Cpp

/-! ## The HID sink's delta clamp: `main/app_hid_trackpad.c`. -/

namespace Hid

/-- The clamp in `app_hid_trackpad_send_move` (app_hid_trackpad.c lines
124-126): `(dx > 127) ? 127 : (dx < -127) ? -127 : (int8_t)dx`.  In the final
branch the value already lies within the `int8_t` range, so the cast is the
identity. -/
def app_hid_clamp_delta (d : ℤ) : ℤ :=
  if d > 127 then 127 else if d < -127 then -127 else d

end Hid

/-! ## The click sequencer: `process_pending_clicks` in `main/ui_trackpad.c`. -/

namespace Seq

/-- `CLICK_PRESS_MS`. -/
def CLICK_PRESS_MS : ℕ := 10

/-- `CLICK_GAP_MS`. -/
def CLICK_GAP_MS : ℕ := 30

/-- The sequencer's three scalars: `s_pending_clicks`, `s_click_phase`
(0 = idle, 1 = pressed, 2 = released) and `s_click_time`. -/
structure ClickState where
  s_pending_clicks : ℕ
  s_click_phase : ℕ
  s_click_time : ℕ
deriving DecidableEq

/-- `queue_clicks(count, now)`. -/
def queue_clicks (count now : ℕ) : ClickState :=
  ⟨count, 0, now⟩

/-- `process_pending_clicks(now)`: one non-blocking step.  The emitted HID
report is `some true` for button-down (`0x01`) and `some false` for
button-up (`0x00`); `elapsed` is the wrapping `uint32_t` difference. -/
def process_pending_clicks (s : ClickState) (now : ℕ) :
    ClickState × Option Bool :=
  if s.s_pending_clicks = 0 then (s, none)
  else
    let elapsed := u32sub now s.s_click_time
    if s.s_click_phase = 0 then
      ({ s with s_click_phase := 1, s_click_time := now }, some true)
    else if s.s_click_phase = 1 ∧ elapsed ≥ CLICK_PRESS_MS then
      ({ s with
        s_click_phase := 2
        s_click_time := now
        s_pending_clicks := s.s_pending_clicks - 1 }, some false)
    else if s.s_click_phase = 2 ∧ s.s_pending_clicks > 0 ∧
        elapsed ≥ CLICK_GAP_MS then
      ({ s with s_click_phase := 0 }, none)
    else if s.s_click_phase = 2 ∧ s.s_pending_clicks = 0 then
      ({ s with s_click_phase := 0 }, none)
    else (s, none)

/-- Run the sequencer over a list of poll timestamps, collecting the emitted
button reports in order. -/
def runClicks (s : ClickState) : List ℕ → ClickState × List Bool
  | [] => (s, [])
  | t :: ts =>
    let s1 := process_pending_clicks s t
    let s2 := runClicks s1.1 ts
    (s2.1, s1.2.toList ++ s2.2)

/-- `n` down/up pulses: the report stream `down, up, down, up, ...`. -/
def clickPattern (n : ℕ) : List Bool :=
  (List.replicate n [true, false]).flatten

/-- Timestamps advancing by at least `CLICK_GAP_MS` from the given origin,
all representable as `uint32_t`. -/
def chainB : ℕ → List ℕ → Bool
  | _, [] => true
  | t, x :: xs => (decide (t + CLICK_GAP_MS ≤ x ∧ x < U32)) && chainB x xs

end Seq

end Trackpad

open Trackpad

/-! ## Claim C8: the jitter dead-zone filter -/

/-- C8: for every raw delta d and threshold T ≥ 0, `trackpad_filter_jitter`
returns 0 when |d| ≤ T and otherwise returns d − sign(d)·T: it subtracts the
dead-zone width instead of passing the raw value through. -/
theorem C8_filter_jitter (d T : ℤ) (hT : 0 ≤ T) :
    (|d| ≤ T → C.trackpad_filter_jitter d T = 0) ∧
    (T < |d| → C.trackpad_filter_jitter d T = d - d.sign * T) := by
  refine ⟨fun h => ?_, fun h => ?_⟩
  · unfold C.trackpad_filter_jitter
    rw [if_pos h]
  · unfold C.trackpad_filter_jitter
    rw [if_neg (not_le.mpr h)]
    rcases lt_trichotomy 0 d with hd | hd | hd
    · rw [if_pos hd, Int.sign_eq_one_of_pos hd]
      ring
    · exfalso
      rw [← hd] at h
      simp only [abs_zero] at h
      omega
    · rw [if_neg (by omega), Int.sign_eq_neg_one_of_neg hd]
      ring

/-- C8 witness: d = 10, T = 3 is outside the dead-zone, so the filter
subtracts sign(10)·3. -/
theorem C8_filter_jitter_witness :
    C.trackpad_filter_jitter 10 3 = 10 - (10 : ℤ).sign * 3 :=
  (C8_filter_jitter 10 3 (by decide)).2 (by decide)

/-! ## Claim C2: the zone classifier -/

/-- C2 counterexample: with `scroll_zone_w = 0` on a 320×240 panel, the
out-of-range coordinate (320, 0) is still classified ScrollV, because the
code has no `w > 0` guard — refuting the claim that `scroll_zone_w = 0`
never classifies any point (including out-of-range points) as ScrollV. -/
theorem C2_zone_counterexample :
    C.trackpad_get_zone 320 0 320 240 0 40 = C.Zone.scrollV := by decide

/-- C2 amended: the classifier tests only `x ≥ hres − w` and `y ≥ vres − h`
(boundary coordinates belong to the strips) with no `w > 0`/`h > 0` guard;
consequently with `w = 0` only coordinates with `x < hres` are never
classified ScrollV (or ScrollCorner) — out-of-panel coordinates `x ≥ hres`
still are. -/
theorem C2_zone_amended (x y : ℤ) (hres vres : ℕ) (w h : ℤ) :
    (C.trackpad_get_zone x y hres vres w h = C.Zone.scrollCorner ↔
      x ≥ (hres : ℤ) - w ∧ y ≥ (vres : ℤ) - h) ∧
    (C.trackpad_get_zone x y hres vres w h = C.Zone.scrollV ↔
      x ≥ (hres : ℤ) - w ∧ ¬(y ≥ (vres : ℤ) - h)) ∧
    (C.trackpad_get_zone x y hres vres w h = C.Zone.scrollH ↔
      ¬(x ≥ (hres : ℤ) - w) ∧ y ≥ (vres : ℤ) - h) ∧
    (x < hres →
      C.trackpad_get_zone x y hres vres 0 h ≠ C.Zone.scrollV ∧
      C.trackpad_get_zone x y hres vres 0 h ≠ C.Zone.scrollCorner) := by
  refine ⟨?_, ?_, ?_, fun hx => ?_⟩ <;>
  · unfold C.trackpad_get_zone
    dsimp only
    split_ifs <;> simp_all <;> omega

/-- C2 witness: (319, 0) is inside the 320-wide panel, so with `w = 0` it is
not classified ScrollV. -/
theorem C2_zone_amended_witness :
    C.trackpad_get_zone 319 0 320 240 0 40 ≠ C.Zone.scrollV :=
  ((C2_zone_amended 319 0 320 240 0 40).2.2.2 (by decide)).1

/-! ## Claim C5: tap duration boundaries -/

/-- C5 counterexample: a release with zero movement after exactly
`TRACKPAD_TAP_MIN_DURATION_MS` = 50 ms IS classified as a single tap (the
code rejects only `duration < 50`), refuting "a touch lasting exactly
tap_min_ms is not a tap". -/
theorem C5_tap_min_counterexample :
    C.trackpad_classify_tap 50 0 0 false = C.TapResult.single := by decide

/-- C5 amended: with negligible movement (net displacement < 15), a duration
of exactly tap_min_ms (50) IS a tap, 49 ms is not (the short-bounce test is
strict), a duration of exactly tap_max_ms (200) is not a tap (the hold test
is inclusive), and 199 ms is. -/
theorem C5_tap_boundaries (net total : ℤ) (pending : Bool) (hnet : net < 15) :
    C.trackpad_classify_tap 50 net total pending ≠ C.TapResult.none ∧
    C.trackpad_classify_tap 49 net total pending = C.TapResult.none ∧
    C.trackpad_classify_tap 200 net total pending = C.TapResult.none ∧
    C.trackpad_classify_tap 199 net total pending ≠ C.TapResult.none := by
  unfold C.trackpad_classify_tap C.TRACKPAD_TAP_MIN_DURATION_MS
    C.TRACKPAD_TAP_MAX_DURATION_MS C.TRACKPAD_TAP_MOVE_THRESHOLD
  refine ⟨?_, by norm_num, by norm_num, ?_⟩ <;>
    · norm_num
      split_ifs <;> simp_all

/-- C5 witness at net = 0, total = 0, pending = false. -/
theorem C5_tap_boundaries_witness :
    C.trackpad_classify_tap 50 0 0 false ≠ C.TapResult.none ∧
    C.trackpad_classify_tap 49 0 0 false = C.TapResult.none ∧
    C.trackpad_classify_tap 200 0 0 false = C.TapResult.none ∧
    C.trackpad_classify_tap 199 0 0 false ≠ C.TapResult.none :=
  C5_tap_boundaries 0 0 false (by decide)

/-! ## Claim C1: no ±127 clamp at the process_input boundary -/

/-- The engine state after pressing at (10, 100) at t = 0 on a fresh 320×240
engine with 40 px scroll strips. -/
def c1_state1 : C.State :=
  (C.trackpad_process_input qSqrt (C.trackpad_state_init 320 240 40 40)
    ⟨C.EventType.pressed, 10, 100, 0⟩).state

/-- The result of the fast 300 px swipe sample that follows. -/
def c1_result : C.StepResult :=
  C.trackpad_process_input qSqrt c1_state1 ⟨C.EventType.pressing, 310, 100, 10⟩

/-- C1 counterexample: a 300 px swipe in 10 ms from a fresh engine makes
`trackpad_process_input` return a Move action with dx = 1485 — the emitted
delta is the rounded accelerated delta with no clamp to [−127, 127]. -/
theorem C1_move_unclamped_counterexample :
    c1_result.ret = true ∧ c1_result.action.type = C.ActionType.move ∧
    c1_result.action.dx = 1485 ∧ ¬|c1_result.action.dx| ≤ 127 := by
  with_unfolding_all decide

/-- C1 amended: `trackpad_process_input` itself emits unclamped deltas (see
the counterexample); the clamp to [−127, 127] is applied by the HID sink
`app_hid_trackpad_send_move`, whose clamped delta always lies in that
range. -/
theorem C1_amended_hid_clamp (d : ℤ) :
    -127 ≤ Hid.app_hid_clamp_delta d ∧ Hid.app_hid_clamp_delta d ≤ 127 := by
  unfold Hid.app_hid_clamp_delta
  split_ifs <;> omega

/-! ## Claim C6: vertical scroll accumulation and natural-scroll inversion -/

/-- The vertical scroll accumulator value after adding the jitter-filtered
dy scaled by 1 / TRACKPAD_SCROLL_SENSITIVITY (trackpad_gesture.c line 231). -/
def scrollAccumNext (s : C.State) (i : C.Input) : ℚ :=
  s.scroll_accum_v +
    (C.trackpad_filter_jitter (i.y - s.last_pos.y) C.TRACKPAD_JITTER_THRESHOLD : ℚ) /
      C.TRACKPAD_SCROLL_SENSITIVITY

/-- C6: on a non-jitter Pressing sample of a contact that started in the
vertical scroll strip (or corner), the engine accumulates
filtered_dy / scroll_sensitivity; when the truncated integer part t of the
accumulator is non-zero it returns a ScrollV action whose units are −t
(natural scrolling) and keeps only the fractional remainder; in particular
downward motion (t > 0) yields units < 0. -/
theorem C6_scrollv_natural (sq : ℚ → ℚ) (s : C.State) (i : C.Input)
    (hty : i.type = C.EventType.pressing)
    (hjit : C.trackpad_is_jitter (i.x - s.last_pos.x) (i.y - s.last_pos.y)
      C.TRACKPAD_JITTER_THRESHOLD = false)
    (hzone : C.trackpad_get_zone s.touch_start.x s.touch_start.y s.hres s.vres
        s.scroll_zone_w s.scroll_zone_h = C.Zone.scrollV ∨
      C.trackpad_get_zone s.touch_start.x s.touch_start.y s.hres s.vres
        s.scroll_zone_w s.scroll_zone_h = C.Zone.scrollCorner)
    (ht : truncQ (scrollAccumNext s i) ≠ 0) :
    (C.trackpad_process_input sq s i).ret = true ∧
    (C.trackpad_process_input sq s i).action.type = C.ActionType.scrollV ∧
    (C.trackpad_process_input sq s i).action.scroll_v =
      -truncQ (scrollAccumNext s i) ∧
    (C.trackpad_process_input sq s i).state.scroll_accum_v =
      scrollAccumNext s i - truncQ (scrollAccumNext s i) ∧
    (0 < truncQ (scrollAccumNext s i) →
      (C.trackpad_process_input sq s i).action.scroll_v < 0) := by
  obtain ⟨ty, x, y, ts⟩ := i
  dsimp only at hty
  subst hty
  unfold C.trackpad_process_input
  unfold scrollAccumNext at ht ⊢
  dsimp only at ht hjit hzone ⊢
  rw [hjit]
  rw [if_neg (by simp)]
  rw [if_pos hzone]
  rw [if_pos ht]
  refine ⟨rfl, rfl, rfl, rfl, fun hpos => ?_⟩
  dsimp only
  omega

/-- The engine state after pressing at (310, 100) — inside the right-edge
vertical strip — of a fresh 320×240 engine with 40 px strips. -/
def c6_state1 : C.State :=
  (C.trackpad_process_input qSqrt (C.trackpad_state_init 320 240 40 40)
    ⟨C.EventType.pressed, 310, 100, 0⟩).state

/-- C6 witness: a finger that pressed at (310, 100) in the right strip of a
fresh 320×240 engine and moved down 40 px produces ScrollV with units −1 and
remainder 17/20. -/
theorem C6_scrollv_natural_witness :
    (C.trackpad_process_input qSqrt c6_state1
        ⟨C.EventType.pressing, 310, 140, 20⟩).ret = true ∧
    (C.trackpad_process_input qSqrt c6_state1
        ⟨C.EventType.pressing, 310, 140, 20⟩).action.type =
      C.ActionType.scrollV ∧
    (C.trackpad_process_input qSqrt c6_state1
        ⟨C.EventType.pressing, 310, 140, 20⟩).action.scroll_v =
      -truncQ (scrollAccumNext c6_state1 ⟨C.EventType.pressing, 310, 140, 20⟩) ∧
    (C.trackpad_process_input qSqrt c6_state1
        ⟨C.EventType.pressing, 310, 140, 20⟩).state.scroll_accum_v =
      scrollAccumNext c6_state1 ⟨C.EventType.pressing, 310, 140, 20⟩ -
        truncQ (scrollAccumNext c6_state1 ⟨C.EventType.pressing, 310, 140, 20⟩) ∧
    (0 < truncQ (scrollAccumNext c6_state1 ⟨C.EventType.pressing, 310, 140, 20⟩) →
      (C.trackpad_process_input qSqrt c6_state1
          ⟨C.EventType.pressing, 310, 140, 20⟩).action.scroll_v < 0) :=
  C6_scrollv_natural qSqrt c6_state1 ⟨C.EventType.pressing, 310, 140, 20⟩
    rfl (by with_unfolding_all decide) (by with_unfolding_all decide)
    (by with_unfolding_all decide)

/-! ## Claim C7: non-monotonic timestamps -/

/-- The engine state after the press at (100, 100) at t = 1000 used by the
C7 counterexample. -/
def c7_state1 : C.State :=
  (C.trackpad_process_input qSqrt (C.trackpad_state_init 320 240 40 40)
    ⟨C.EventType.pressed, 100, 100, 1000⟩).state

/-- The state after the out-of-order Pressing sample at t = 999 (earlier
than the recorded sample time 1000). -/
def c7_state2 : C.State :=
  (C.trackpad_process_input qSqrt c7_state1
    ⟨C.EventType.pressing, 200, 100, 999⟩).state

/-- C7 counterexample: after the decreasing timestamp the smoothed x-velocity
is 1940/286331153, i.e. 29100/4294967295 in lowest terms ≈ 7·10⁻⁶ — the
elapsed time wrapped to 2^32 − 1 ms.  A Δt clamped to zero (then floored to
1 ms), as the claim states, would give velocity 0.3 · (97·1000/1) = 29100
instead. -/
theorem C7_wrapped_dt_counterexample :
    c7_state2.velocity_x_smooth.num = 1940 ∧
    c7_state2.velocity_x_smooth.den = 286331153 ∧
    ¬c7_state2.velocity_x_smooth = 29100 := by
  with_unfolding_all decide

/-- C7 amended: on a Pressing sample whose timestamp is smaller than the
recorded sample time, the elapsed time is the wrapping uint32 difference
2^32 − (last − now) — a huge value, not a clamp to zero — and the engine
proceeds without resetting state: touch_start and touch_down_time are kept
and the EWMA velocity update divides by the wrapped Δt. -/
theorem C7_wrapped_dt (sq : ℚ → ℚ) (s : C.State) (i : C.Input)
    (hty : i.type = C.EventType.pressing)
    (hlt : i.timestamp_ms < s.last_sample_time)
    (hrep : s.last_sample_time < U32)
    (hjit : C.trackpad_is_jitter (i.x - s.last_pos.x) (i.y - s.last_pos.y)
      C.TRACKPAD_JITTER_THRESHOLD = false) :
    (C.trackpad_process_input sq s i).state.touch_start = s.touch_start ∧
    (C.trackpad_process_input sq s i).state.touch_down_time =
      s.touch_down_time ∧
    (C.trackpad_process_input sq s i).state.velocity_x_smooth =
      C.trackpad_ewma_update s.velocity_x_smooth
        ((C.trackpad_filter_jitter (i.x - s.last_pos.x)
            C.TRACKPAD_JITTER_THRESHOLD : ℚ) /
          (((U32 - (s.last_sample_time - i.timestamp_ms) : ℕ) : ℚ) * (1/1000)))
        C.TRACKPAD_VELOCITY_ALPHA := by
  obtain ⟨ty, x, y, ts⟩ := i
  dsimp only at hty hlt hjit ⊢
  subst hty
  have hdt : u32sub ts s.last_sample_time =
      U32 - (s.last_sample_time - ts) := by
    unfold u32sub U32 at *
    omega
  have hne : u32sub ts s.last_sample_time ≠ 0 := by
    rw [hdt]
    unfold U32 at *
    omega
  unfold C.trackpad_process_input
  dsimp only
  rw [hjit]
  rw [if_neg (by simp)]
  rw [if_neg hne, hdt]
  split_ifs <;> exact ⟨rfl, rfl, rfl⟩

/-- C7 witness: the amended theorem applied to the concrete out-of-order
sample of the counterexample (press at t = 1000, move sample at t = 999). -/
theorem C7_wrapped_dt_witness :
    (C.trackpad_process_input qSqrt c7_state1
        ⟨C.EventType.pressing, 200, 100, 999⟩).state.touch_start =
      c7_state1.touch_start ∧
    (C.trackpad_process_input qSqrt c7_state1
        ⟨C.EventType.pressing, 200, 100, 999⟩).state.touch_down_time =
      c7_state1.touch_down_time ∧
    (C.trackpad_process_input qSqrt c7_state1
        ⟨C.EventType.pressing, 200, 100, 999⟩).state.velocity_x_smooth =
      C.trackpad_ewma_update c7_state1.velocity_x_smooth
        ((C.trackpad_filter_jitter (200 - c7_state1.last_pos.x)
            C.TRACKPAD_JITTER_THRESHOLD : ℚ) /
          (((U32 - (c7_state1.last_sample_time - 999) : ℕ) : ℚ) * (1/1000)))
        C.TRACKPAD_VELOCITY_ALPHA :=
  C7_wrapped_dt qSqrt c7_state1 ⟨C.EventType.pressing, 200, 100, 999⟩
    rfl (by with_unfolding_all decide) (by with_unfolding_all decide)
    (by with_unfolding_all decide)

/-! ## Claim C3: the button_held implies Dragging invariant -/

/-- Strengthened inductive invariant: while the button is held, the engine is
dragging, the tap-tap flag is still set, the contact started in the main
zone, and the accumulated movement stays above the drag threshold. -/
def dragInv (s : C.State) : Prop :=
  s.button_held = true →
    s.state = C.TouchState.dragging ∧ s.tap_tap_pending = true ∧
    C.trackpad_get_zone s.touch_start.x s.touch_start.y s.hres s.vres
      s.scroll_zone_w s.scroll_zone_h = C.Zone.main ∧
    s.total_movement > C.TRACKPAD_DRAG_MOVE_THRESHOLD

set_option maxHeartbeats 2000000 in
/-- One step preserves `dragInv`, provided a Pressed event is only delivered
while the button is not held. -/
theorem dragInv_step (sq : ℚ → ℚ) (s : C.State) (i : C.Input)
    (hs : dragInv s)
    (hp : i.type = C.EventType.pressed → s.button_held = false) :
    dragInv (C.trackpad_process_input sq s i).state := by
  obtain ⟨ty, x, y, ts⟩ := i
  cases ty
  case pressed =>
    have hb : s.button_held = false := hp rfl
    unfold C.trackpad_process_input
    dsimp only
    split_ifs <;> intro hbb <;> simp_all [dragInv]
  case pressing =>
    unfold C.trackpad_process_input
    dsimp only
    split_ifs <;> intro hbb <;> (try dsimp only at hbb ⊢) <;>
      first
      | exact hs hbb
      | (refine ⟨rfl, ?_, ?_, ?_⟩ <;>
          (first
           | (simp_all
              done)
           | (rcases hz : C.trackpad_get_zone s.touch_start.x s.touch_start.y
                s.hres s.vres s.scroll_zone_w s.scroll_zone_h <;> simp_all
              done)))
      | (obtain ⟨h1, h2, h3, h4⟩ := hs hbb
         simp_all
         all_goals
           linarith [abs_nonneg (x - s.last_pos.x), abs_nonneg (y - s.last_pos.y)]
         done)
  case released =>
    unfold C.trackpad_process_input
    dsimp only
    split_ifs <;> intro hbb <;> simp_all [dragInv]

/-- Traces along which a Pressed event only arrives while the button is not
held (the property the host's alternating press/release sampling provides). -/
def pressOnlyWhenFree (sq : ℚ → ℚ) : C.State → List C.Input → Bool
  | _, [] => true
  | s, i :: rest =>
    ((if i.type = C.EventType.pressed then !s.button_held else true) &&
      pressOnlyWhenFree sq (C.trackpad_process_input sq s i).state rest)

/-- `dragInv` holds after running any trace satisfying `pressOnlyWhenFree`. -/
theorem dragInv_run (sq : ℚ → ℚ) (l : List C.Input) :
    ∀ s : C.State, dragInv s → pressOnlyWhenFree sq s l = true →
      dragInv (C.runC sq s l) := by
  induction l with
  | nil => exact fun s hs _ => hs
  | cons i rest ih =>
    intro s hs hfree
    unfold pressOnlyWhenFree at hfree
    rw [Bool.and_eq_true] at hfree
    refine ih _ (dragInv_step sq s i hs fun hty => ?_) hfree.2
    have h1 := hfree.1
    rw [if_pos hty] at h1
    simpa using h1

/-- C3 counterexample state: tap at (100,100), second press within the
tap-tap window, a 40 px move that starts the drag, then a Pressed event
delivered while the engine is still dragging (no intervening Released). -/
def c3_state : C.State :=
  C.runC qSqrt (C.trackpad_state_init 320 240 40 40)
    [⟨C.EventType.pressed, 100, 100, 0⟩,
     ⟨C.EventType.released, 100, 100, 100⟩,
     ⟨C.EventType.pressed, 100, 100, 200⟩,
     ⟨C.EventType.pressing, 140, 100, 210⟩,
     ⟨C.EventType.pressed, 150, 100, 220⟩]

/-- C3 counterexample: after a Pressed event arriving during Dragging with no
intervening Released, the engine is left with `button_held = true` while the
phase is Down, not Dragging — the invariant is violated at that return. -/
theorem C3_button_held_counterexample :
    c3_state.button_held = true ∧
    ¬c3_state.state = C.TouchState.dragging := by
  with_unfolding_all decide

/-- C3 amended: the invariant "button_held implies phase = Dragging" holds at
every return of `trackpad_process_input` along every finite trace from a
fresh engine in which each Pressed event arrives while the button is not
held (in particular every well-formed pressed/pressing/released trace); a
Pressed delivered during Dragging breaks it (see the counterexample). -/
theorem C3_button_held_invariant (sq : ℚ → ℚ) (hres vres : ℕ) (w h : ℤ)
    (inputs : List C.Input)
    (hfree : pressOnlyWhenFree sq (C.trackpad_state_init hres vres w h)
      inputs = true) :
    (C.runC sq (C.trackpad_state_init hres vres w h) inputs).button_held =
      false ∨
    (C.runC sq (C.trackpad_state_init hres vres w h) inputs).state =
      C.TouchState.dragging := by
  have h0 : dragInv (C.trackpad_state_init hres vres w h) := by
    intro hb
    simp [C.trackpad_state_init] at hb
  have hinv := dragInv_run sq inputs _ h0 hfree
  rcases Bool.eq_false_or_eq_true
    ((C.runC sq (C.trackpad_state_init hres vres w h) inputs).button_held) with
    hb | hb
  · exact Or.inr (hinv hb).1
  · exact Or.inl hb

/-- The two-event trace of the C3 witness: a plain tap. -/
def c3w_trace : List C.Input :=
  [⟨C.EventType.pressed, 100, 100, 0⟩,
   ⟨C.EventType.released, 100, 100, 100⟩]

/-- C3 witness: the amended invariant theorem applied to a concrete tap
trace on a fresh 320×240 engine. -/
theorem C3_button_held_invariant_witness :
    pressOnlyWhenFree qSqrt (C.trackpad_state_init 320 240 40 40)
      c3w_trace = true ∧
    ((C.runC qSqrt (C.trackpad_state_init 320 240 40 40)
        c3w_trace).button_held = false ∨
      (C.runC qSqrt (C.trackpad_state_init 320 240 40 40) c3w_trace).state =
        C.TouchState.dragging) :=
  ⟨by with_unfolding_all decide,
    C3_button_held_invariant qSqrt 320 240 40 40 c3w_trace
      (by with_unfolding_all decide)⟩

/-! ## Claim C4: accumulators stay inside (−1, 1) -/

/-- The scroll accumulators of the procedural engine lie strictly inside
(−1, 1). -/
def accInvC (s : C.State) : Prop :=
  -1 < s.scroll_accum_v ∧ s.scroll_accum_v < 1 ∧
  -1 < s.scroll_accum_h ∧ s.scroll_accum_h < 1

set_option maxHeartbeats 2000000 in
/-- One `trackpad_process_input` step keeps the scroll accumulators inside
(−1, 1): every emission subtracts the truncated integer part, and a
non-emission means the truncation was zero. -/
theorem accInvC_step (sq : ℚ → ℚ) (s : C.State) (i : C.Input)
    (hs : accInvC s) : accInvC (C.trackpad_process_input sq s i).state := by
  obtain ⟨ty, x, y, ts⟩ := i
  obtain ⟨h1, h2, h3, h4⟩ := hs
  cases ty <;>
    (unfold C.trackpad_process_input
     dsimp only
     split_ifs <;>
       refine ⟨?_, ?_, ?_, ?_⟩ <;>
       first
       | assumption
       | exact (sub_truncQ_bounds _).1
       | exact (sub_truncQ_bounds _).2
       | exact (truncQ_eq_zero_bounds _ (not_not.mp (by assumption))).1
       | exact (truncQ_eq_zero_bounds _ (not_not.mp (by assumption))).2
       | (norm_num
          done))

/-- `accInvC` holds after any trace from a state satisfying it. -/
theorem accInvC_run (sq : ℚ → ℚ) (l : List C.Input) :
    ∀ s : C.State, accInvC s → accInvC (C.runC sq s l) := by
  induction l with
  | nil => exact fun s hs => hs
  | cons i rest ih => exact fun s hs => ih _ (accInvC_step sq s i hs)

/-- The sub-pixel accumulators of the class-based engine lie strictly inside
(−1, 1). -/
def accInvCpp (t : Cpp.Trackpad) : Prop :=
  -1 < t.m_accum_x ∧ t.m_accum_x < 1 ∧
  -1 < t.m_accum_y ∧ t.m_accum_y < 1

/-- `emitPendingClicks` never touches `m_accum_x`. -/
theorem emitPendingClicks_accum_x (t : Cpp.Trackpad) :
    (t.emitPendingClicks).2.m_accum_x = t.m_accum_x := by
  unfold Cpp.Trackpad.emitPendingClicks
  split_ifs <;> rfl

/-- `emitPendingClicks` never touches `m_accum_y`. -/
theorem emitPendingClicks_accum_y (t : Cpp.Trackpad) :
    (t.emitPendingClicks).2.m_accum_y = t.m_accum_y := by
  unfold Cpp.Trackpad.emitPendingClicks
  split_ifs <;> rfl

/-- After `pressingMove` both sub-pixel accumulators lie inside (−1, 1),
from any pre-state: the `int16_t` cast extracts the truncation toward zero
and it is subtracted from the accumulated value. -/
theorem pressingMove_accInv (t : Cpp.Trackpad) (dx dy : ℤ) :
    accInvCpp ((t.pressingMove dx dy).2) := by
  unfold Cpp.Trackpad.pressingMove accInvCpp
  dsimp only
  split_ifs <;>
    exact ⟨(sub_truncQ_bounds _).1, (sub_truncQ_bounds _).2,
      (sub_truncQ_bounds _).1, (sub_truncQ_bounds _).2⟩

set_option maxHeartbeats 1000000 in
/-- One host call (processInput or tick) keeps the sub-pixel accumulators
inside (−1, 1): the emitted delta is the truncation toward zero of the
accumulated value and is subtracted from it. -/
theorem accInvCpp_step (t : Cpp.Trackpad) (c : Cpp.HostCall)
    (hs : accInvCpp t) : accInvCpp (t.hostStep c) := by
  obtain ⟨h1, h2, h3, h4⟩ := hs
  cases c
  case tick now =>
    unfold Cpp.Trackpad.hostStep Cpp.Trackpad.tick
    dsimp only
    split_ifs <;>
      first
      | exact ⟨h1, h2, h3, h4⟩
      | (refine ⟨?_, ?_, ?_, ?_⟩ <;>
          simp only [emitPendingClicks_accum_x, emitPendingClicks_accum_y] <;>
          assumption)
  case input i =>
    obtain ⟨ev, x, y, ts⟩ := i
    cases ev
    case pressed =>
      unfold Cpp.Trackpad.hostStep Cpp.Trackpad.processInput
        Cpp.Trackpad.handlePressed
      dsimp only
      split_ifs <;> exact ⟨by norm_num, by norm_num, by norm_num, by norm_num⟩
    case pressing =>
      unfold Cpp.Trackpad.hostStep Cpp.Trackpad.processInput
        Cpp.Trackpad.handlePressing
      dsimp only
      split_ifs <;>
        first
        | exact ⟨h1, h2, h3, h4⟩
        | exact pressingMove_accInv _ _ _
        | (refine ⟨?_, ?_, ?_, ?_⟩ <;>
            simp only [emitPendingClicks_accum_x, emitPendingClicks_accum_y] <;>
            assumption)
    case released =>
      unfold Cpp.Trackpad.hostStep Cpp.Trackpad.processInput
        Cpp.Trackpad.handleReleased
      dsimp only
      split_ifs <;>
        first
        | exact ⟨h1, h2, h3, h4⟩
        | (refine ⟨?_, ?_, ?_, ?_⟩ <;>
            simp only [emitPendingClicks_accum_x, emitPendingClicks_accum_y] <;>
            assumption)

/-- `accInvCpp` holds after any sequence of host calls from a state
satisfying it. -/
theorem accInvCpp_run (l : List Cpp.HostCall) :
    ∀ t : Cpp.Trackpad, accInvCpp t → accInvCpp (Cpp.runCpp t l) := by
  induction l with
  | nil => exact fun t hs => hs
  | cons c rest ih => exact fun t hs => ih _ (accInvCpp_step t c hs)

/-- C4: along every input trace from a fresh engine, the scroll accumulators
of the procedural engine and the sub-pixel accumulators of the class-based
engine stay strictly inside (−1, 1) after every call — in particular after
every Move/DragMove or Scroll emission — because every emission subtracts
the truncated integer part from the accumulator. -/
theorem C4_accumulators (sq : ℚ → ℚ) (hres vres : ℕ) (w h : ℤ)
    (inputs : List C.Input) (sw sh : ℕ) (calls : List Cpp.HostCall) :
    accInvC (C.runC sq (C.trackpad_state_init hres vres w h) inputs) ∧
    accInvCpp (Cpp.runCpp (Cpp.Trackpad.init sw sh) calls) := by
  constructor
  · refine accInvC_run sq inputs _ ?_
    unfold accInvC C.trackpad_state_init
    norm_num
  · refine accInvCpp_run calls _ ?_
    unfold accInvCpp Cpp.Trackpad.init Cpp.Trackpad.reset
    norm_num

/-! ## Claim C9: the click sequencer -/

/-- `u32sub` is plain subtraction for ordered in-range operands. -/
theorem u32sub_eq_sub (a b : ℕ) (hba : b ≤ a) (ha : a < U32) :
    u32sub a b = a - b := by
  unfold u32sub
  unfold U32 at ha ⊢
  omega

/-- Unfolding one poll of the sequencer run. -/
theorem runClicks_cons (s : Seq.ClickState) (t : ℕ) (ts : List ℕ) :
    Seq.runClicks s (t :: ts) =
      ((Seq.runClicks (Seq.process_pending_clicks s t).1 ts).1,
        (Seq.process_pending_clicks s t).2.toList ++
          (Seq.runClicks (Seq.process_pending_clicks s t).1 ts).2) := rfl

/-- A drained sequencer emits nothing: `process_pending_clicks` returns
immediately when `s_pending_clicks = 0`. -/
theorem runClicks_pending_zero (ts : List ℕ) :
    ∀ s : Seq.ClickState, s.s_pending_clicks = 0 →
      Seq.runClicks s ts = (s, []) := by
  induction ts with
  | nil => intro s _; rfl
  | cons t rest ih =>
    intro s h
    rw [runClicks_cons]
    unfold Seq.process_pending_clicks
    rw [if_pos h]
    dsimp only
    rw [ih s h]
    simp

/-- Idle phase: emit button-down, go to Pressed. -/
theorem seq_step_idle (p t0 now : ℕ) (hp : ¬p = 0) :
    Seq.process_pending_clicks ⟨p, 0, t0⟩ now = (⟨p, 1, now⟩, some true) := by
  unfold Seq.process_pending_clicks
  rw [if_neg hp]
  dsimp only
  rw [if_pos rfl]

/-- Pressed phase with ≥ CLICK_PRESS_MS elapsed: emit button-up, go to
Released, decrement the pending count. -/
theorem seq_step_pressed (p tp now : ℕ) (hp : ¬p = 0)
    (h10 : u32sub now tp ≥ Seq.CLICK_PRESS_MS) :
    Seq.process_pending_clicks ⟨p, 1, tp⟩ now =
      (⟨p - 1, 2, now⟩, some false) := by
  unfold Seq.process_pending_clicks
  rw [if_neg hp]
  dsimp only
  rw [if_neg (by omega), if_pos ⟨rfl, h10⟩]

/-- Released phase with clicks remaining and ≥ CLICK_GAP_MS elapsed: return
to Idle (emitting nothing). -/
theorem seq_step_released (p tr now : ℕ) (hp : ¬p = 0)
    (h30 : u32sub now tr ≥ Seq.CLICK_GAP_MS) :
    Seq.process_pending_clicks ⟨p, 2, tr⟩ now = (⟨p, 0, tr⟩, none) := by
  unfold Seq.process_pending_clicks
  rw [if_neg hp]
  dsimp only
  rw [if_neg (by omega), if_neg (by simp), if_pos ⟨rfl, by omega, h30⟩]

/-- Relaxing the chain origin: a chain from a later origin is a chain from
any earlier one. -/
theorem chainB_mono (b c : ℕ) (hbc : b ≤ c) (rest : List ℕ)
    (h : Seq.chainB c rest = true) : Seq.chainB b rest = true := by
  cases rest with
  | nil => rfl
  | cons x xs =>
    simp only [Seq.chainB, Seq.CLICK_GAP_MS, Bool.and_eq_true,
      decide_eq_true_eq] at h ⊢
    exact ⟨⟨by omega, h.1.2⟩, h.2⟩

/-- From `pending = p + 1` in phase Idle, a chain of at least `3(p+1)`
timestamps spaced by at least CLICK_GAP_MS yields exactly the alternating
down/up pattern. -/
theorem runClicks_pattern (p : ℕ) :
    ∀ (t0 : ℕ) (ts : List ℕ), Seq.chainB t0 ts = true →
      3 * (p + 1) ≤ ts.length →
      (Seq.runClicks ⟨p + 1, 0, t0⟩ ts).2 = Seq.clickPattern (p + 1) := by
  induction p with
  | zero =>
    intro t0 ts hchain hlen
    match ts, hlen with
    | a :: b :: rest, hlen =>
      simp only [Seq.chainB, Seq.CLICK_GAP_MS, Bool.and_eq_true,
        decide_eq_true_eq] at hchain
      obtain ⟨⟨ha1, ha2⟩, ⟨hb1, hb2⟩, hrest⟩ := hchain
      rw [runClicks_cons, seq_step_idle _ _ _ (by omega)]
      dsimp only
      rw [runClicks_cons, seq_step_pressed _ _ _ (by omega)
        (by rw [u32sub_eq_sub b a (by omega) hb2]; unfold Seq.CLICK_PRESS_MS; omega)]
      dsimp only
      rw [runClicks_pending_zero rest _ rfl]
      simp [Seq.clickPattern]
  | succ p ih =>
    intro t0 ts hchain hlen
    match ts, hlen with
    | a :: b :: c :: rest, hlen =>
      simp only [Seq.chainB, Seq.CLICK_GAP_MS, Bool.and_eq_true,
        decide_eq_true_eq] at hchain
      obtain ⟨⟨ha1, ha2⟩, ⟨hb1, hb2⟩, ⟨hc1, hc2⟩, hrest⟩ := hchain
      rw [runClicks_cons, seq_step_idle _ _ _ (by omega)]
      dsimp only
      rw [runClicks_cons, seq_step_pressed _ _ _ (by omega)
        (by rw [u32sub_eq_sub b a (by omega) hb2]; unfold Seq.CLICK_PRESS_MS; omega)]
      dsimp only
      rw [runClicks_cons, seq_step_released _ _ _ (by omega)
        (by rw [u32sub_eq_sub c b (by omega) hc2]; unfold Seq.CLICK_GAP_MS; omega)]
      dsimp only
      have hchain' : Seq.chainB b rest = true :=
        chainB_mono b c (by omega) rest hrest
      have hlen' : 3 * (p + 1) ≤ rest.length := by
        simp only [List.length_cons] at hlen
        omega
      simp only [Nat.add_sub_cancel]
      rw [ih b rest hchain' hlen']
      simp [Seq.clickPattern, List.replicate_succ]

/-- C9: loaded by `queue_clicks` with `pending_clicks = n ∈ {1,2,3,4}` in
phase Idle, the sequencer driven by monotonically advancing poll timestamps
(each at least CLICK_GAP_MS after the previous) over at least 3n polls emits
exactly n button-down and n button-up reports, strictly alternating
down/up (following Idle → Pressed → Released → Idle). -/
theorem C9_click_sequencer (n t0 : ℕ) (ts : List ℕ)
    (hn1 : 1 ≤ n) (hn4 : n ≤ 4)
    (hchain : Seq.chainB t0 ts = true) (hlen : 3 * n ≤ ts.length) :
    (Seq.runClicks (Seq.queue_clicks n t0) ts).2 = Seq.clickPattern n := by
  obtain ⟨m, rfl⟩ : ∃ m, n = m + 1 := ⟨n - 1, by omega⟩
  exact runClicks_pattern m t0 ts hchain hlen

/-- C9 witness: two queued clicks over six polls 30 ms apart emit
down, up, down, up. -/
theorem C9_click_sequencer_witness :
    (Seq.runClicks (Seq.queue_clicks 2 0) [30, 60, 90, 120, 150, 180]).2 =
      Seq.clickPattern 2 :=
  C9_click_sequencer 2 0 [30, 60, 90, 120, 150, 180]
    (by decide) (by decide) (by decide) (by decide)

/-! ## Claim C10: HIDE_DRAG_INDICATOR is never returned -/

/-- C10: for every state (reachable or not) and every input,
`trackpad_process_input` never returns an action of type
HIDE_DRAG_INDICATOR: the release branch that would emit it tests
`tap_tap_pending` only after clearing it. -/
theorem C10_no_hide_drag_indicator (sq : ℚ → ℚ) (s : C.State) (i : C.Input) :
    (C.trackpad_process_input sq s i).action.type ≠
      C.ActionType.hideDragIndicator := by
  obtain ⟨ty, x, y, ts⟩ := i
  cases ty <;>
    · unfold C.trackpad_process_input
      dsimp only
      split_ifs <;> simp_all
